import Mathlib

/-! # The CUDA/HIP kernel handle of the stream executor

A shallow embedding of `tensorflow/stream_executor/cuda/cuda_kernel.h`: the class `CUDAKernel`
(three scalar fields, a constructor, two setters, the slot pointer handed to the module loader
and four `const` getters) followed by the properties proved about it.

Conventions of the embedding:

* a member function that writes a field is a function `CUDAKernel → … → CUDAKernel`;
* a `const` member function is a function of the object state alone;
* a member function that may end in `LOG(FATAL)` returns an `Outcome`;
* the conditional compilation of the header is made explicit: the preprocessor symbols the header
  tests are Boolean parameters of the functions whose text depends on them.
-/

namespace perftools.gputools.cuda

/-! ## Result of a call that may terminate the process -/

/-- Result of a member function that either returns a value to its caller or ends the process
through `LOG(FATAL)` with a diagnostic message. -/
inductive Outcome (α : Type) where
  | returned (value : α)
  | fatal (message : String)
deriving DecidableEq, Repr

/-- True exactly for the outcomes that end the process. -/
def Outcome.isFatal {α : Type} : Outcome α → Bool
  | .returned _ => false
  | .fatal _ => true

/-! ## Types declared outside the header -/

/-- Modelled from the spec: the platform-independent cache-configuration preference
`KernelCacheConfig`, an `enum class` declared in `kernel_cache_config.h`, a header that is not
embedded here. A value of the type is its underlying `int`; the four enumerators named by the
`case` labels of `GetCUDACacheConfig` are the four cases the spec lists (no-preference,
prefer-shared, prefer-L1, prefer-equal), numbered from zero in that order as C++ numbers
enumerators without initialisers. Any other underlying value is an unrecognised preference. -/
structure KernelCacheConfig where
  raw : Int
deriving DecidableEq, Repr

namespace KernelCacheConfig

/-- Enumerator `KernelCacheConfig::kNoPreference`. -/
def kNoPreference : KernelCacheConfig := ⟨0⟩

/-- Enumerator `KernelCacheConfig::kPreferShared`. -/
def kPreferShared : KernelCacheConfig := ⟨1⟩

/-- Enumerator `KernelCacheConfig::kPreferL1`. -/
def kPreferL1 : KernelCacheConfig := ⟨2⟩

/-- Enumerator `KernelCacheConfig::kPreferEqual`. -/
def kPreferEqual : KernelCacheConfig := ⟨3⟩

/-- The recognised preferences: the values of the four `case` labels of the `switch` in
`GetCUDACacheConfig`. -/
def recognised (c : KernelCacheConfig) : Prop :=
  c = kNoPreference ∨ c = kPreferShared ∨ c = kPreferL1 ∨ c = kPreferEqual

instance (c : KernelCacheConfig) : Decidable c.recognised := by
  unfold recognised
  infer_instance

end KernelCacheConfig

/-- The conversion `static_cast<int32>(·)`: reduction to the two's-complement 32-bit range. -/
def static_cast_int32 (v : Int) : Int :=
  (v + 2 ^ 31) % 2 ^ 32 - 2 ^ 31

/-- The conversion of an argument to a parameter of type `unsigned` (32 bits wide). -/
def to_unsigned (n : Nat) : Nat :=
  n % 2 ^ 32

/-- Modelled from the spec: the opaque native function reference `hipFunction_t`, a pointer type
declared by the vendor runtime header, which is not embedded here. A value is the address it
holds; address zero is `nullptr`. -/
structure hipFunction_t where
  addr : Nat
deriving DecidableEq, Repr

/-- The null pointer as a `hipFunction_t`. -/
def nullptr : hipFunction_t := ⟨0⟩

/-- Modelled from the spec: the vendor driver's cache-configuration constants. The type
`hipFuncCache_t` and its enumerators are declared by the vendor runtime header, which is not
embedded here; the eight constants named in `GetCUDACacheConfig` are kept as eight named values,
four for each platform. -/
inductive hipFuncCache_t where
  | cudaFuncCachePreferNone
  | cudaFuncCachePreferShared
  | cudaFuncCachePreferL1
  | cudaFuncCachePreferEqual
  | hipFuncCachePreferNone
  | hipFuncCachePreferShared
  | hipFuncCachePreferL1
  | hipFuncCachePreferEqual
deriving DecidableEq, Repr

/-- The two HIP platforms. The header includes `hip/hip_runtime.h`, the header that declares
`hipFunction_t` and `hipFuncCache_t`; that header belongs to exactly one of the two platforms, so
a translation unit in which `CUDAKernel` exists is built for one of them. -/
inductive HipPlatform where
  | nvcc
  | hcc
deriving DecidableEq, Repr

/-- Whether `__HIP_PLATFORM_NVCC__` is defined in a build for the platform. -/
def HipPlatform.NVCC : HipPlatform → Bool
  | .nvcc => true
  | .hcc => false

/-- Whether `__HIP_PLATFORM_HCC__` is defined in a build for the platform. -/
def HipPlatform.HCC : HipPlatform → Bool
  | .nvcc => false
  | .hcc => true

/-- Modelled from the spec: the debug assertion `DCHECK(condition)` of `platform/logging.h`, which
is not embedded here. With assertions compiled in (`NDEBUG` not defined) a false
condition ends the process; with `NDEBUG` defined the condition is not evaluated. The third
argument is the source text of the condition, quoted in the diagnostic. -/
def DCHECK (ndebug : Bool) (condition : Bool) (text : String) : Outcome Unit :=
  if !ndebug && !condition then .fatal ("Check failed: " ++ text ++ " ") else .returned ()

/-! ## The class `CUDAKernel` -/

/-- The private fields of `CUDAKernel`, in declaration order. -/
structure CUDAKernel where
  cuda_function_ : hipFunction_t
  arity_ : Nat
  preferred_cache_config_ : KernelCacheConfig
deriving DecidableEq, Repr

/-- A pointer to a field of an object: what can be read through it and what writing through it
does to the object. -/
structure FieldPtr (σ α : Type) where
  load : σ → α
  store : σ → α → σ

/-- The constructor `CUDAKernel()`: null function, arity zero, no cache preference. (Named `ctor`
because the class name cannot be reused inside its own namespace.) -/
def CUDAKernel.ctor : CUDAKernel where
  cuda_function_ := nullptr
  arity_ := 0
  preferred_cache_config_ := KernelCacheConfig.kNoPreference

/-- The member `void set_arity(unsigned arity)`. -/
def CUDAKernel.set_arity (k : CUDAKernel) (arity : Nat) : CUDAKernel :=
  { k with arity_ := to_unsigned arity }

/-- The member `unsigned Arity() const`. -/
def CUDAKernel.Arity (k : CUDAKernel) : Nat :=
  k.arity_

/-- The member `hipFunction_t AsCUDAFunctionValue() const`: the assertion, then the field. -/
def CUDAKernel.AsCUDAFunctionValue (ndebug : Bool) (k : CUDAKernel) : Outcome hipFunction_t :=
  match DCHECK ndebug (k.cuda_function_ != nullptr) "cuda_function_ != nullptr" with
  | .fatal message => .fatal message
  | .returned () => .returned k.cuda_function_

/-- The member `hipFunction_t *cuda_function_ptr()`: the address of the field `cuda_function_`. -/
def CUDAKernel.cuda_function_ptr : FieldPtr CUDAKernel hipFunction_t where
  load := fun k => k.cuda_function_
  store := fun k f => { k with cuda_function_ := f }

/-- The member `void SetPreferredCacheConfig(KernelCacheConfig config)`. -/
def CUDAKernel.SetPreferredCacheConfig (k : CUDAKernel) (config : KernelCacheConfig) :
    CUDAKernel :=
  { k with preferred_cache_config_ := config }

/-- The member `KernelCacheConfig GetPreferredCacheConfig() const`. -/
def CUDAKernel.GetPreferredCacheConfig (k : CUDAKernel) : KernelCacheConfig :=
  k.preferred_cache_config_

/-- The statements under one `case` label of `GetCUDACacheConfig`, after preprocessing:
`return` of the CUDA constant when `__HIP_PLATFORM_NVCC__` is defined, else `return` of the HIP
constant when `__HIP_PLATFORM_HCC__` is defined, else nothing. -/
def caseBody (nvcc hcc : Bool) (cudaConstant hipConstant : hipFuncCache_t) :
    Option hipFuncCache_t :=
  if nvcc then some cudaConstant else if hcc then some hipConstant else none

/-- The member `hipFuncCache_t GetCUDACacheConfig() const`. Control enters the `switch` at the
label matching the stored preference and runs downwards: a label whose body is a `return` returns
it, a label whose body is empty falls through to the next one, and `default` ends the process
with the diagnostic `"Unknown KernelCacheConfig"` followed by the preference as an `int32`. -/
def CUDAKernel.GetCUDACacheConfig (nvcc hcc : Bool) (k : CUDAKernel) : Outcome hipFuncCache_t :=
  let atDefault : Outcome hipFuncCache_t :=
    .fatal ("Unknown KernelCacheConfig" ++
      toString (static_cast_int32 k.preferred_cache_config_.raw))
  let atPreferEqual : Outcome hipFuncCache_t :=
    match caseBody nvcc hcc .cudaFuncCachePreferEqual .hipFuncCachePreferEqual with
    | some c => .returned c
    | none => atDefault
  let atPreferL1 : Outcome hipFuncCache_t :=
    match caseBody nvcc hcc .cudaFuncCachePreferL1 .hipFuncCachePreferL1 with
    | some c => .returned c
    | none => atPreferEqual
  let atPreferShared : Outcome hipFuncCache_t :=
    match caseBody nvcc hcc .cudaFuncCachePreferShared .hipFuncCachePreferShared with
    | some c => .returned c
    | none => atPreferL1
  let atNoPreference : Outcome hipFuncCache_t :=
    match caseBody nvcc hcc .cudaFuncCachePreferNone .hipFuncCachePreferNone with
    | some c => .returned c
    | none => atPreferShared
  if k.preferred_cache_config_ = KernelCacheConfig.kNoPreference then atNoPreference
  else if k.preferred_cache_config_ = KernelCacheConfig.kPreferShared then atPreferShared
  else if k.preferred_cache_config_ = KernelCacheConfig.kPreferL1 then atPreferL1
  else if k.preferred_cache_config_ = KernelCacheConfig.kPreferEqual then atPreferEqual
  else atDefault

/-! ## Sequences of calls -/

/-- A call of one of the two setters, with its argument. -/
inductive SetterCall where
  | set_arity (arity : Nat)
  | SetPreferredCacheConfig (config : KernelCacheConfig)
deriving DecidableEq, Repr

/-- The effect of one setter call on the object. -/
def SetterCall.apply (k : CUDAKernel) : SetterCall → CUDAKernel
  | .set_arity arity => k.set_arity arity
  | .SetPreferredCacheConfig config => k.SetPreferredCacheConfig config

/-- The effect of a sequence of setter calls, made in order. -/
def runSetters (k : CUDAKernel) (calls : List SetterCall) : CUDAKernel :=
  calls.foldl SetterCall.apply k

/-- The preference a vendor constant stands for: the reading of the `switch` of
`GetCUDACacheConfig` from its `return` statements back to its `case` labels. It is not part of the
header; it serves to state that the translation loses no information. -/
def preferenceOf : hipFuncCache_t → KernelCacheConfig
  | .cudaFuncCachePreferNone | .hipFuncCachePreferNone => KernelCacheConfig.kNoPreference
  | .cudaFuncCachePreferShared | .hipFuncCachePreferShared => KernelCacheConfig.kPreferShared
  | .cudaFuncCachePreferL1 | .hipFuncCachePreferL1 => KernelCacheConfig.kPreferL1
  | .cudaFuncCachePreferEqual | .hipFuncCachePreferEqual => KernelCacheConfig.kPreferEqual

/-! ## Auxiliary facts -/

/-- The two setters leave the native function slot as it is, whatever the sequence of calls. -/
theorem runSetters_cuda_function (calls : List SetterCall) (k : CUDAKernel) :
    (runSetters k calls).cuda_function_ = k.cuda_function_ := by
  induction calls generalizing k with
  | nil => rfl
  | cons call rest ih =>
    have hstep : (SetterCall.apply k call).cuda_function_ = k.cuda_function_ := by
      cases call <;> rfl
    simpa [runSetters, List.foldl_cons, hstep] using ih (SetterCall.apply k call)

/-- The getter of the native handle reads nothing but the native function slot. -/
theorem AsCUDAFunctionValue_congr (ndebug : Bool) (k k' : CUDAKernel)
    (h : k'.cuda_function_ = k.cuda_function_) :
    k'.AsCUDAFunctionValue ndebug = k.AsCUDAFunctionValue ndebug := by
  simp [CUDAKernel.AsCUDAFunctionValue, h]

/-- On a non-null slot the assertion passes in every build and the slot content is returned. -/
theorem AsCUDAFunctionValue_of_ne_null (ndebug : Bool) (k : CUDAKernel)
    (h : k.cuda_function_ ≠ nullptr) :
    k.AsCUDAFunctionValue ndebug = .returned k.cuda_function_ := by
  simp [CUDAKernel.AsCUDAFunctionValue, DCHECK, h]

/-- On a null slot the call ends the process when assertions are compiled in, and hands back the
null pointer when they are compiled out. -/
theorem AsCUDAFunctionValue_of_null (ndebug : Bool) (k : CUDAKernel)
    (h : k.cuda_function_ = nullptr) :
    k.AsCUDAFunctionValue ndebug =
      if ndebug then .returned nullptr else .fatal "Check failed: cuda_function_ != nullptr " := by
  cases ndebug <;> simp [CUDAKernel.AsCUDAFunctionValue, DCHECK, h]

/-- The translation performed by a build for a HIP platform, read off the `switch`: the result
depends on the stored preference alone. -/
theorem GetCUDACacheConfig_platform (p : HipPlatform) (k : CUDAKernel) :
    k.GetCUDACacheConfig p.NVCC p.HCC =
      if k.preferred_cache_config_ = KernelCacheConfig.kNoPreference then
        .returned (if p = .nvcc then .cudaFuncCachePreferNone else .hipFuncCachePreferNone)
      else if k.preferred_cache_config_ = KernelCacheConfig.kPreferShared then
        .returned (if p = .nvcc then .cudaFuncCachePreferShared else .hipFuncCachePreferShared)
      else if k.preferred_cache_config_ = KernelCacheConfig.kPreferL1 then
        .returned (if p = .nvcc then .cudaFuncCachePreferL1 else .hipFuncCachePreferL1)
      else if k.preferred_cache_config_ = KernelCacheConfig.kPreferEqual then
        .returned (if p = .nvcc then .cudaFuncCachePreferEqual else .hipFuncCachePreferEqual)
      else
        .fatal ("Unknown KernelCacheConfig" ++
          toString (static_cast_int32 k.preferred_cache_config_.raw)) := by
  cases p <;> simp [CUDAKernel.GetCUDACacheConfig, caseBody, HipPlatform.NVCC, HipPlatform.HCC]

/-- With neither platform symbol defined every `case` body is empty, so every label falls through
to `default`. (No such build exists: see `HipPlatform`.) -/
theorem GetCUDACacheConfig_without_platform (k : CUDAKernel) :
    k.GetCUDACacheConfig false false =
      .fatal ("Unknown KernelCacheConfig" ++
        toString (static_cast_int32 k.preferred_cache_config_.raw)) := by
  simp [CUDAKernel.GetCUDACacheConfig, caseBody]

/-- In a build for a HIP platform the fatal outcome is reached exactly on the unrecognised
preferences. -/
theorem fatal_iff_unrecognised (p : HipPlatform) (k : CUDAKernel) :
    (k.GetCUDACacheConfig p.NVCC p.HCC).isFatal = true ↔
      ¬ k.preferred_cache_config_.recognised := by
  rw [GetCUDACacheConfig_platform]
  unfold KernelCacheConfig.recognised
  by_cases h0 : k.preferred_cache_config_ = KernelCacheConfig.kNoPreference
  · simp [h0, Outcome.isFatal, KernelCacheConfig.kNoPreference,
      KernelCacheConfig.kPreferShared, KernelCacheConfig.kPreferL1,
      KernelCacheConfig.kPreferEqual]
  by_cases h1 : k.preferred_cache_config_ = KernelCacheConfig.kPreferShared
  · simp [h1, Outcome.isFatal, KernelCacheConfig.kNoPreference,
      KernelCacheConfig.kPreferShared, KernelCacheConfig.kPreferL1,
      KernelCacheConfig.kPreferEqual]
  by_cases h2 : k.preferred_cache_config_ = KernelCacheConfig.kPreferL1
  · simp [h2, Outcome.isFatal, KernelCacheConfig.kNoPreference,
      KernelCacheConfig.kPreferShared, KernelCacheConfig.kPreferL1,
      KernelCacheConfig.kPreferEqual]
  by_cases h3 : k.preferred_cache_config_ = KernelCacheConfig.kPreferEqual
  · simp [h3, Outcome.isFatal, KernelCacheConfig.kNoPreference,
      KernelCacheConfig.kPreferShared, KernelCacheConfig.kPreferL1,
      KernelCacheConfig.kPreferEqual]
  simp [h0, h1, h2, h3, Outcome.isFatal]

/-- In a build for a HIP platform a recognised preference is translated to a vendor constant from
which `preferenceOf` reads the preference back. -/
theorem GetCUDACacheConfig_recover (p : HipPlatform) (k : CUDAKernel)
    (h : k.preferred_cache_config_.recognised) :
    ∃ v : hipFuncCache_t,
      k.GetCUDACacheConfig p.NVCC p.HCC = .returned v
      ∧ preferenceOf v = k.preferred_cache_config_ := by
  rw [GetCUDACacheConfig_platform]
  rcases h with h | h | h | h <;> cases p <;>
    simp [h, preferenceOf, KernelCacheConfig.kNoPreference, KernelCacheConfig.kPreferShared,
      KernelCacheConfig.kPreferL1, KernelCacheConfig.kPreferEqual]

/-! ## The translation of the preference -/

/-- Claim C1. For each of the four defined preferences, a kernel holding it (with any native
handle and any arity) makes `GetCUDACacheConfig` return one vendor constant, never the fatal
outcome: `kNoPreference` gives PreferNone, `kPreferShared` gives PreferShared, `kPreferL1` gives
PreferL1 and `kPreferEqual` gives PreferEqual, namely the `cudaFuncCache…` constant in a build for
the NVCC platform and the `hipFuncCache…` constant in a build for the HCC platform. -/
theorem GetCUDACacheConfig_defined_preferences (f : hipFunction_t) (a : Nat) :
    (CUDAKernel.GetCUDACacheConfig HipPlatform.nvcc.NVCC HipPlatform.nvcc.HCC
        ⟨f, a, KernelCacheConfig.kNoPreference⟩ = .returned .cudaFuncCachePreferNone
      ∧ CUDAKernel.GetCUDACacheConfig HipPlatform.nvcc.NVCC HipPlatform.nvcc.HCC
        ⟨f, a, KernelCacheConfig.kPreferShared⟩ = .returned .cudaFuncCachePreferShared
      ∧ CUDAKernel.GetCUDACacheConfig HipPlatform.nvcc.NVCC HipPlatform.nvcc.HCC
        ⟨f, a, KernelCacheConfig.kPreferL1⟩ = .returned .cudaFuncCachePreferL1
      ∧ CUDAKernel.GetCUDACacheConfig HipPlatform.nvcc.NVCC HipPlatform.nvcc.HCC
        ⟨f, a, KernelCacheConfig.kPreferEqual⟩ = .returned .cudaFuncCachePreferEqual)
    ∧ (CUDAKernel.GetCUDACacheConfig HipPlatform.hcc.NVCC HipPlatform.hcc.HCC
        ⟨f, a, KernelCacheConfig.kNoPreference⟩ = .returned .hipFuncCachePreferNone
      ∧ CUDAKernel.GetCUDACacheConfig HipPlatform.hcc.NVCC HipPlatform.hcc.HCC
        ⟨f, a, KernelCacheConfig.kPreferShared⟩ = .returned .hipFuncCachePreferShared
      ∧ CUDAKernel.GetCUDACacheConfig HipPlatform.hcc.NVCC HipPlatform.hcc.HCC
        ⟨f, a, KernelCacheConfig.kPreferL1⟩ = .returned .hipFuncCachePreferL1
      ∧ CUDAKernel.GetCUDACacheConfig HipPlatform.hcc.NVCC HipPlatform.hcc.HCC
        ⟨f, a, KernelCacheConfig.kPreferEqual⟩ = .returned .hipFuncCachePreferEqual) := by
  refine ⟨⟨?_, ?_, ?_, ?_⟩, ⟨?_, ?_, ?_, ?_⟩⟩ <;> rfl

/-- Claim C2. In a build for either platform, `GetCUDACacheConfig` ends in the fatal outcome
exactly when the stored preference is none of the four recognised values, and the diagnostic is
then `"Unknown KernelCacheConfig"` followed by the preference as an `int32`. The only other
operation with a fatal outcome, `AsCUDAFunctionValue`, does not depend on the stored preference:
its outcome is the same whatever preference is stored. -/
theorem GetCUDACacheConfig_fatal_iff (p : HipPlatform) (k : CUDAKernel) :
    ((k.GetCUDACacheConfig p.NVCC p.HCC).isFatal = true ↔
        ¬ k.GetPreferredCacheConfig.recognised)
    ∧ ((k.GetCUDACacheConfig p.NVCC p.HCC).isFatal = true ↔
        k.GetCUDACacheConfig p.NVCC p.HCC =
          .fatal ("Unknown KernelCacheConfig" ++
            toString (static_cast_int32 k.GetPreferredCacheConfig.raw)))
    ∧ (∀ (ndebug : Bool) (c : KernelCacheConfig),
        (k.SetPreferredCacheConfig c).AsCUDAFunctionValue ndebug =
          k.AsCUDAFunctionValue ndebug) := by
  refine ⟨?_, ?_, ?_⟩
  · exact fatal_iff_unrecognised p k
  · rw [GetCUDACacheConfig_platform]
    unfold CUDAKernel.GetPreferredCacheConfig
    by_cases h0 : k.preferred_cache_config_ = KernelCacheConfig.kNoPreference
    · simp [h0, Outcome.isFatal, KernelCacheConfig.kNoPreference,
        KernelCacheConfig.kPreferShared, KernelCacheConfig.kPreferL1,
        KernelCacheConfig.kPreferEqual]
    by_cases h1 : k.preferred_cache_config_ = KernelCacheConfig.kPreferShared
    · simp [h1, Outcome.isFatal, KernelCacheConfig.kNoPreference,
        KernelCacheConfig.kPreferShared, KernelCacheConfig.kPreferL1,
        KernelCacheConfig.kPreferEqual]
    by_cases h2 : k.preferred_cache_config_ = KernelCacheConfig.kPreferL1
    · simp [h2, Outcome.isFatal, KernelCacheConfig.kNoPreference,
        KernelCacheConfig.kPreferShared, KernelCacheConfig.kPreferL1,
        KernelCacheConfig.kPreferEqual]
    by_cases h3 : k.preferred_cache_config_ = KernelCacheConfig.kPreferEqual
    · simp [h3, Outcome.isFatal, KernelCacheConfig.kNoPreference,
        KernelCacheConfig.kPreferShared, KernelCacheConfig.kPreferL1,
        KernelCacheConfig.kPreferEqual]
    simp [h0, h1, h2, h3, Outcome.isFatal]
  · intro ndebug c
    exact AsCUDAFunctionValue_congr ndebug k _ rfl

/-! ## The accessors -/

/-- Claim C3. For every kernel state and every `unsigned` value `n`, `Arity()` called after
`set_arity(n)` returns `n`; and after any sequence of `set_arity` calls ending with
`set_arity(n)`, `Arity()` returns `n`, the argument of the last call. -/
theorem Arity_set_arity (k : CUDAKernel) (n : Nat) (hn : n < 2 ^ 32) :
    (k.set_arity n).Arity = n
    ∧ ∀ earlier : List Nat, ((earlier ++ [n]).foldl CUDAKernel.set_arity k).Arity = n := by
  have hlast : ∀ k0 : CUDAKernel, (k0.set_arity n).Arity = n := by
    intro k0
    show n % 2 ^ 32 = n
    exact Nat.mod_eq_of_lt hn
  refine ⟨hlast k, ?_⟩
  intro earlier
  rw [List.foldl_append]
  exact hlast _

/-- Witness: arity 5 set on a fresh kernel, directly and after two earlier
calls, the second of which passes a value that wraps. -/
theorem Arity_set_arity_witness :
    5 < 2 ^ 32
    ∧ (CUDAKernel.ctor.set_arity 5).Arity = 5
    ∧ (([7, 4294967301] ++ [5]).foldl CUDAKernel.set_arity CUDAKernel.ctor).Arity = 5 :=
  ⟨by norm_num, (Arity_set_arity CUDAKernel.ctor 5 (by norm_num)).1,
    (Arity_set_arity CUDAKernel.ctor 5 (by norm_num)).2 [7, 4294967301]⟩

/-- Claim C4. For every kernel state and every preference `c`, recognised or not,
`GetPreferredCacheConfig()` called after `SetPreferredCacheConfig(c)` returns `c`; and after any
sequence of `SetPreferredCacheConfig` calls ending with `SetPreferredCacheConfig(c)`,
`GetPreferredCacheConfig()` returns `c`, the argument of the last call. -/
theorem GetPreferredCacheConfig_SetPreferredCacheConfig (k : CUDAKernel)
    (c : KernelCacheConfig) :
    (k.SetPreferredCacheConfig c).GetPreferredCacheConfig = c
    ∧ ∀ earlier : List KernelCacheConfig,
        ((earlier ++ [c]).foldl CUDAKernel.SetPreferredCacheConfig k).GetPreferredCacheConfig
          = c := by
  refine ⟨rfl, ?_⟩
  intro earlier
  rw [List.foldl_append]
  rfl

/-! ## The native function slot -/

/-- Claim C5. On a kernel whose native function slot is null, after any sequence of `set_arity`
and `SetPreferredCacheConfig` calls the slot is still null, so the condition asserted by
`AsCUDAFunctionValue` is false: with the assertion compiled in the call ends the process, and in
no build does the call return a non-null handle. -/
theorem AsCUDAFunctionValue_unset (k : CUDAKernel) (calls : List SetterCall)
    (hnull : k.cuda_function_ = nullptr) :
    CUDAKernel.cuda_function_ptr.load (runSetters k calls) = nullptr
    ∧ ((runSetters k calls).cuda_function_ != nullptr) = false
    ∧ ((runSetters k calls).AsCUDAFunctionValue false).isFatal = true
    ∧ ∀ (ndebug : Bool) (v : hipFunction_t),
        (runSetters k calls).AsCUDAFunctionValue ndebug = .returned v →
          ndebug = true ∧ v = nullptr := by
  have hslot : (runSetters k calls).cuda_function_ = nullptr := by
    rw [runSetters_cuda_function, hnull]
  refine ⟨hslot, by simp [hslot], ?_, ?_⟩
  · rw [AsCUDAFunctionValue_of_null false _ hslot]
    rfl
  · intro ndebug v hv
    rw [AsCUDAFunctionValue_of_null ndebug _ hslot] at hv
    cases ndebug
    · simp at hv
    · simp only [if_true, Outcome.returned.injEq] at hv
      exact ⟨rfl, hv.symm⟩

/-- Witness: the freshly constructed kernel, followed by three
setter calls. -/
theorem AsCUDAFunctionValue_unset_witness :
    CUDAKernel.ctor.cuda_function_ = nullptr
    ∧ ((runSetters CUDAKernel.ctor
          [.set_arity 3, .SetPreferredCacheConfig KernelCacheConfig.kPreferL1,
            .set_arity 2]).AsCUDAFunctionValue false).isFatal = true :=
  ⟨rfl, (AsCUDAFunctionValue_unset CUDAKernel.ctor
    [.set_arity 3, .SetPreferredCacheConfig KernelCacheConfig.kPreferL1, .set_arity 2] rfl).2.2.1⟩

/-- Claim C6. For every non-null native handle `h`, once `h` has been written through the pointer
returned by `cuda_function_ptr()`, the assertion of `AsCUDAFunctionValue` passes and the call
returns `h`, in every build; and it still does after any sequence of calls of the two setters,
that is, for as long as the slot is not written again. -/
theorem AsCUDAFunctionValue_after_store (k : CUDAKernel) (h : hipFunction_t)
    (calls : List SetterCall) (ndebug : Bool) (hh : h ≠ nullptr) :
    (∀ text : String,
        DCHECK ndebug
          ((runSetters (CUDAKernel.cuda_function_ptr.store k h) calls).cuda_function_ != nullptr)
          text = .returned ())
    ∧ (CUDAKernel.cuda_function_ptr.store k h).AsCUDAFunctionValue ndebug = .returned h
    ∧ (runSetters (CUDAKernel.cuda_function_ptr.store k h) calls).AsCUDAFunctionValue ndebug
        = .returned h := by
  have hslot : (runSetters (CUDAKernel.cuda_function_ptr.store k h) calls).cuda_function_ = h := by
    rw [runSetters_cuda_function]
    rfl
  have himm : (CUDAKernel.cuda_function_ptr.store k h).cuda_function_ = h := rfl
  refine ⟨?_, ?_, ?_⟩
  · intro text
    simp [DCHECK, hslot, hh]
  · have := AsCUDAFunctionValue_of_ne_null ndebug (CUDAKernel.cuda_function_ptr.store k h)
      (by rw [himm]; exact hh)
    rw [this, himm]
  · have := AsCUDAFunctionValue_of_ne_null ndebug
      (runSetters (CUDAKernel.cuda_function_ptr.store k h) calls) (by rw [hslot]; exact hh)
    rw [this, hslot]

/-- Witness: the loader writes address 4096 into a fresh
kernel, two setter calls follow, assertions are compiled in. -/
theorem AsCUDAFunctionValue_after_store_witness :
    (⟨4096⟩ : hipFunction_t) ≠ nullptr
    ∧ (runSetters (CUDAKernel.cuda_function_ptr.store CUDAKernel.ctor ⟨4096⟩)
          [.set_arity 2, .SetPreferredCacheConfig KernelCacheConfig.kPreferShared]
        ).AsCUDAFunctionValue false = .returned ⟨4096⟩ :=
  ⟨by decide, (AsCUDAFunctionValue_after_store CUDAKernel.ctor ⟨4096⟩
    [.set_arity 2, .SetPreferredCacheConfig KernelCacheConfig.kPreferShared] false
    (by decide)).2.2⟩

/-! ## Setting, then translating -/

/-- Claim C7. For every kernel state, whatever preference it stored before,
`GetCUDACacheConfig()` called after `SetPreferredCacheConfig(c)` with a recognised `c` returns
the vendor constant the `switch` assigns to `c`: PreferNone for `kNoPreference`, PreferShared for
`kPreferShared`, PreferL1 for `kPreferL1` and PreferEqual for `kPreferEqual`, the
`cudaFuncCache…` constant in a build for the NVCC platform and the `hipFuncCache…` constant in a
build for the HCC platform. In general the result after `SetPreferredCacheConfig(c)` is the
result for any kernel that holds `c`, with any native handle and any arity. -/
theorem GetCUDACacheConfig_after_SetPreferredCacheConfig (k : CUDAKernel) :
    ((k.SetPreferredCacheConfig KernelCacheConfig.kNoPreference).GetCUDACacheConfig
          HipPlatform.nvcc.NVCC HipPlatform.nvcc.HCC = .returned .cudaFuncCachePreferNone
      ∧ (k.SetPreferredCacheConfig KernelCacheConfig.kPreferShared).GetCUDACacheConfig
          HipPlatform.nvcc.NVCC HipPlatform.nvcc.HCC = .returned .cudaFuncCachePreferShared
      ∧ (k.SetPreferredCacheConfig KernelCacheConfig.kPreferL1).GetCUDACacheConfig
          HipPlatform.nvcc.NVCC HipPlatform.nvcc.HCC = .returned .cudaFuncCachePreferL1
      ∧ (k.SetPreferredCacheConfig KernelCacheConfig.kPreferEqual).GetCUDACacheConfig
          HipPlatform.nvcc.NVCC HipPlatform.nvcc.HCC = .returned .cudaFuncCachePreferEqual)
    ∧ ((k.SetPreferredCacheConfig KernelCacheConfig.kNoPreference).GetCUDACacheConfig
          HipPlatform.hcc.NVCC HipPlatform.hcc.HCC = .returned .hipFuncCachePreferNone
      ∧ (k.SetPreferredCacheConfig KernelCacheConfig.kPreferShared).GetCUDACacheConfig
          HipPlatform.hcc.NVCC HipPlatform.hcc.HCC = .returned .hipFuncCachePreferShared
      ∧ (k.SetPreferredCacheConfig KernelCacheConfig.kPreferL1).GetCUDACacheConfig
          HipPlatform.hcc.NVCC HipPlatform.hcc.HCC = .returned .hipFuncCachePreferL1
      ∧ (k.SetPreferredCacheConfig KernelCacheConfig.kPreferEqual).GetCUDACacheConfig
          HipPlatform.hcc.NVCC HipPlatform.hcc.HCC = .returned .hipFuncCachePreferEqual)
    ∧ ∀ (p : HipPlatform) (c : KernelCacheConfig) (f : hipFunction_t) (a : Nat),
        (k.SetPreferredCacheConfig c).GetCUDACacheConfig p.NVCC p.HCC
          = CUDAKernel.GetCUDACacheConfig p.NVCC p.HCC ⟨f, a, c⟩ := by
  refine ⟨⟨?_, ?_, ?_, ?_⟩, ⟨?_, ?_, ?_, ?_⟩, ?_⟩
  · rfl
  · rfl
  · rfl
  · rfl
  · rfl
  · rfl
  · rfl
  · rfl
  · intro p c f a
    rw [GetCUDACacheConfig_platform, GetCUDACacheConfig_platform]
    rfl

/-- Claim C8. The two setters are independent: `set_arity(n)` leaves the stored preference and
the native handle unchanged, `SetPreferredCacheConfig(c)` leaves the arity and the native handle
unchanged, and the two calls made in either order leave the kernel in the same state. -/
theorem set_arity_SetPreferredCacheConfig_independent (k : CUDAKernel) (n : Nat)
    (c : KernelCacheConfig) :
    (k.set_arity n).GetPreferredCacheConfig = k.GetPreferredCacheConfig
    ∧ CUDAKernel.cuda_function_ptr.load (k.set_arity n) = CUDAKernel.cuda_function_ptr.load k
    ∧ (k.SetPreferredCacheConfig c).Arity = k.Arity
    ∧ CUDAKernel.cuda_function_ptr.load (k.SetPreferredCacheConfig c)
        = CUDAKernel.cuda_function_ptr.load k
    ∧ (k.set_arity n).SetPreferredCacheConfig c = (k.SetPreferredCacheConfig c).set_arity n :=
  ⟨rfl, rfl, rfl, rfl, rfl⟩

/-- Claim C9. A freshly constructed kernel has arity 0 and preference `kNoPreference`: `Arity()`
returns 0, `GetPreferredCacheConfig()` returns `kNoPreference`, and `GetCUDACacheConfig()`
returns the PreferNone constant of the platform the build is for, not the fatal outcome. -/
theorem ctor_defaults :
    CUDAKernel.ctor.Arity = 0
    ∧ CUDAKernel.ctor.GetPreferredCacheConfig = KernelCacheConfig.kNoPreference
    ∧ CUDAKernel.ctor.GetCUDACacheConfig HipPlatform.nvcc.NVCC HipPlatform.nvcc.HCC
        = .returned .cudaFuncCachePreferNone
    ∧ CUDAKernel.ctor.GetCUDACacheConfig HipPlatform.hcc.NVCC HipPlatform.hcc.HCC
        = .returned .hipFuncCachePreferNone
    ∧ ∀ p : HipPlatform,
        (CUDAKernel.ctor.GetCUDACacheConfig p.NVCC p.HCC).isFatal = false := by
  refine ⟨rfl, rfl, rfl, rfl, ?_⟩
  intro p
  cases p <;> rfl

/-- Claim C10. In a build for either platform the translation is injective on the recognised
preferences: two kernels holding distinct recognised preferences make `GetCUDACacheConfig` return
distinct vendor constants, and the preference is recovered from the returned constant by
`preferenceOf`. -/
theorem GetCUDACacheConfig_injective (p : HipPlatform) (k₁ k₂ : CUDAKernel)
    (h₁ : k₁.GetPreferredCacheConfig.recognised) (h₂ : k₂.GetPreferredCacheConfig.recognised)
    (hne : k₁.GetPreferredCacheConfig ≠ k₂.GetPreferredCacheConfig) :
    k₁.GetCUDACacheConfig p.NVCC p.HCC ≠ k₂.GetCUDACacheConfig p.NVCC p.HCC
    ∧ ∃ v₁ v₂ : hipFuncCache_t,
        k₁.GetCUDACacheConfig p.NVCC p.HCC = .returned v₁
        ∧ k₂.GetCUDACacheConfig p.NVCC p.HCC = .returned v₂
        ∧ v₁ ≠ v₂
        ∧ preferenceOf v₁ = k₁.GetPreferredCacheConfig
        ∧ preferenceOf v₂ = k₂.GetPreferredCacheConfig := by
  obtain ⟨v₁, hv₁, hp₁⟩ := GetCUDACacheConfig_recover p k₁ h₁
  obtain ⟨v₂, hv₂, hp₂⟩ := GetCUDACacheConfig_recover p k₂ h₂
  have hv : v₁ ≠ v₂ := by
    intro heq
    apply hne
    show k₁.preferred_cache_config_ = k₂.preferred_cache_config_
    rw [← hp₁, ← hp₂, heq]
  refine ⟨?_, v₁, v₂, hv₁, hv₂, hv, hp₁, hp₂⟩
  rw [hv₁, hv₂]
  intro heq
  exact hv (Outcome.returned.inj heq)

/-- Witness: an NVCC build, a fresh kernel and a kernel on which `kPreferShared` was set. -/
theorem GetCUDACacheConfig_injective_witness :
    CUDAKernel.ctor.GetPreferredCacheConfig.recognised
    ∧ (CUDAKernel.ctor.SetPreferredCacheConfig
        KernelCacheConfig.kPreferShared).GetPreferredCacheConfig.recognised
    ∧ CUDAKernel.ctor.GetPreferredCacheConfig ≠
        (CUDAKernel.ctor.SetPreferredCacheConfig
          KernelCacheConfig.kPreferShared).GetPreferredCacheConfig
    ∧ CUDAKernel.ctor.GetCUDACacheConfig HipPlatform.nvcc.NVCC HipPlatform.nvcc.HCC ≠
        (CUDAKernel.ctor.SetPreferredCacheConfig
          KernelCacheConfig.kPreferShared).GetCUDACacheConfig
            HipPlatform.nvcc.NVCC HipPlatform.nvcc.HCC :=
  ⟨by decide, by decide, by decide,
    (GetCUDACacheConfig_injective HipPlatform.nvcc CUDAKernel.ctor
      (CUDAKernel.ctor.SetPreferredCacheConfig KernelCacheConfig.kPreferShared)
      (by decide) (by decide) (by decide)).1⟩

end perftools.gputools.cuda
